import Mathlib

/-!
Shallow embedding of the zamer-avito-system coordination core.

The database tables (`tasks`, `proxies`, `workers`, `results`) are modelled as
Lean lists of records; the list order models the physical row order of the
table.  Each SQL `UPDATE ... WHERE ...` from `src/worker/src/db.py` and
`src/cleanup/cleanup.py` becomes a `List.map` with a conditional row update,
and the `ORDER BY key ASC LIMIT 1 FOR UPDATE SKIP LOCKED` sub-selects become a
minimum-selection over the filtered table (ties resolved by physical row
order, since the SQL orders by the key only).  Wall-clock timestamps are
naturals (`NOW()` is passed in as a parameter); `x < NOW() - INTERVAL 'T
seconds'` is embedded without truncation as `x + T < now`.
-/

namespace Zamer

/-- Task status domain, from the `tasks.status` values used in the sources. -/
inductive TaskStatus where
  | pending
  | processing
  | completed
  | failed
deriving DecidableEq

/-- Proxy status domain, from the `proxies.status` values used in the sources. -/
inductive ProxyStatus where
  | available
  | locked
  | blocked
deriving DecidableEq

/-- Worker status domain, from the `workers.status` values used in the sources. -/
inductive WorkerStatus where
  | active
  | stopped
deriving DecidableEq

/-- One row of the `tasks` table. -/
structure Task where
  id : Nat
  item_id : Nat
  status : TaskStatus
  attempts : Nat
  max_attempts : Nat
  worker_id : Option String
  created_at : Nat
  last_attempt_at : Option Nat
  completed_at : Option Nat
deriving DecidableEq

/-- One row of the `proxies` table. -/
structure Proxy where
  id : Nat
  proxy : String
  status : ProxyStatus
  locked_by : Option String
  locked_at : Option Nat
  last_used_at : Option Nat
  uses_count : Nat
  blocks_count : Nat
deriving DecidableEq

/-- One row of the `workers` table. -/
structure Worker where
  worker_id : String
  status : WorkerStatus
  last_heartbeat : Option Nat
  tasks_processed : Nat
  tasks_failed : Nat
deriving DecidableEq

/-- One row of the `results` table; only the columns the verified claims
mention are carried (`item_id` is the upsert key, `status` is the
`success`/`unavailable` tag set by the processor, `src/worker/src/db.py`
`save_result_to_db`). -/
structure ResultRow where
  item_id : Nat
  status : String
  worker_id : String
  attempts : Nat
deriving DecidableEq

/-- Default of `DB_RETRY_ATTEMPTS`, `src/worker/src/config.py` line 38. -/
def DB_RETRY_ATTEMPTS : Nat := 5

/-- Embedding of `SELECT ... ORDER BY key ASC LIMIT 1` over an (unordered)
table: some element with the minimal key; among equal keys the row earlier in
physical table order is produced, since the SQL orders by `key` only. -/
def sqlSelectMin {α : Type} (key : α → Nat) : List α → Option α
  | [] => none
  | a :: rest =>
    match sqlSelectMin key rest with
    | none => some a
    | some b => if key a ≤ key b then some a else some b

/-- The row returned by `acquire_task` (`RETURNING id, item_id, attempts`,
`src/worker/src/db.py` line 78); `attempts` is the post-update value. -/
structure TaskLease where
  task_id : Nat
  item_id : Nat
  attempts : Nat
deriving DecidableEq

/-- The `SET` clause of `acquire_task` (`src/worker/src/db.py` lines 66-70). -/
def acquire_task_row (wid : String) (now : Nat) (t : Task) : Task :=
  { t with
    status := TaskStatus.processing
    worker_id := some wid
    last_attempt_at := some now
    attempts := t.attempts + 1 }

/-- Function `acquire_task` (`src/worker/src/db.py` lines 65-87): updates the pending
task selected by `ORDER BY created_at ASC LIMIT 1` and returns its lease,
or returns the table unchanged with no lease when no pending task exists. -/
def acquire_task_table (wid : String) (now : Nat) (tbl : List Task) :
    List Task × Option TaskLease :=
  match sqlSelectMin (fun t => t.created_at)
      (tbl.filter (fun t => t.status = TaskStatus.pending)) with
  | none => (tbl, none)
  | some sel =>
    (tbl.map (fun t => if t.id = sel.id then acquire_task_row wid now t else t),
     some ⟨sel.id, sel.item_id, sel.attempts + 1⟩)

/-- The `SET` clause of `acquire_proxy` (`src/worker/src/db.py` lines 107-111). -/
def acquire_proxy_row (wid : String) (now : Nat) (p : Proxy) : Proxy :=
  { p with
    status := ProxyStatus.locked
    locked_by := some wid
    locked_at := some now
    uses_count := p.uses_count + 1 }

/-- Function `acquire_proxy` (`src/worker/src/db.py` lines 106-127): updates the
available proxy selected by `ORDER BY uses_count ASC LIMIT 1` and returns its
`(id, proxy)`, or no lease when no available proxy exists. -/
def acquire_proxy_table (wid : String) (now : Nat) (tbl : List Proxy) :
    List Proxy × Option (Nat × String) :=
  match sqlSelectMin (fun p => p.uses_count)
      (tbl.filter (fun p => p.status = ProxyStatus.available)) with
  | none => (tbl, none)
  | some sel =>
    (tbl.map (fun p => if p.proxy = sel.proxy then acquire_proxy_row wid now p else p),
     some (sel.id, sel.proxy))

/-- Function `release_proxy` (`src/worker/src/db.py` lines 143-150): `UPDATE proxies
SET status='available', locked_by=NULL, locked_at=NULL, last_used_at=NOW()
WHERE proxy=$1`.  Note that the `WHERE` clause matches on the proxy string
only; there is no `status='locked'` guard in the source. -/
def release_proxy_table (now : Nat) (ps : String) (tbl : List Proxy) : List Proxy :=
  tbl.map (fun p =>
    if p.proxy = ps then
      { p with
        status := ProxyStatus.available
        locked_by := none
        locked_at := none
        last_used_at := some now }
    else p)

/-- Function `mark_proxy_blocked` (`src/worker/src/db.py` lines 167-172): `UPDATE
proxies SET status='blocked', blocks_count=blocks_count+1 WHERE proxy=$1`.
The source does not touch `locked_by` or `locked_at`. -/
def mark_proxy_blocked_table (ps : String) (tbl : List Proxy) : List Proxy :=
  tbl.map (fun p =>
    if p.proxy = ps then
      { p with
        status := ProxyStatus.blocked
        blocks_count := p.blocks_count + 1 }
    else p)

/-- Function `save_result_to_db` (`src/worker/src/db.py` lines 189-232): `INSERT ...
ON CONFLICT (item_id) DO UPDATE` — an upsert keyed by `item_id` that
overwrites the content columns of an existing row. -/
def save_result_table (r : ResultRow) (tbl : List ResultRow) : List ResultRow :=
  if tbl.any (fun q => q.item_id = r.item_id) then
    tbl.map (fun q => if q.item_id = r.item_id then r else q)
  else
    tbl ++ [r]

/-- Function `mark_task_completed` (`src/worker/src/db.py` lines 249-254): `UPDATE
tasks SET status='completed', completed_at=NOW() WHERE id=$1`.  The source
does not touch `worker_id`. -/
def mark_task_completed_table (now : Nat) (tid : Nat) (tbl : List Task) : List Task :=
  tbl.map (fun t =>
    if t.id = tid then
      { t with
        status := TaskStatus.completed
        completed_at := some now }
    else t)

/-- Function `increment_task_attempts` (`src/worker/src/db.py` lines 271-280), the
releaseTask operation: one `UPDATE` whose `SET status = CASE WHEN attempts >=
max_attempts THEN 'failed' ELSE 'pending' END` branch runs inside the
database, also clearing `worker_id` and `last_attempt_at`. -/
def increment_task_attempts_table (tid : Nat) (tbl : List Task) : List Task :=
  tbl.map (fun t =>
    if t.id = tid then
      { t with
        status := if t.max_attempts ≤ t.attempts then TaskStatus.failed
                  else TaskStatus.pending
        worker_id := none
        last_attempt_at := none }
    else t)

/-- Function `increment_worker_stats` (`src/worker/src/db.py` lines 297-308): bumps
`tasks_processed` when `success`, else `tasks_failed`. -/
def increment_worker_stats_table (wid : String) (success : Bool)
    (tbl : List Worker) : List Worker :=
  tbl.map (fun w =>
    if w.worker_id = wid then
      if success then { w with tasks_processed := w.tasks_processed + 1 }
      else { w with tasks_failed := w.tasks_failed + 1 }
    else w)

/-- Function `update_heartbeat` (`src/worker/src/db.py` lines 325-331): `INSERT INTO
workers (worker_id) VALUES ($1) ON CONFLICT (worker_id) DO UPDATE SET
last_heartbeat=NOW(), status='active'`.  The freshly inserted row's remaining
columns come from the DDL of `sql/init.sql`, which is not under `src/`;
modelled from the spec: a first heartbeat creates the row `active` with zeroed
counters (spec section 3, Worker lifecycle). -/
def update_heartbeat_table (now : Nat) (wid : String) (tbl : List Worker) :
    List Worker :=
  if tbl.any (fun w => w.worker_id = wid) then
    tbl.map (fun w =>
      if w.worker_id = wid then
        { w with last_heartbeat := some now, status := WorkerStatus.active }
      else w)
  else
    tbl ++ [⟨wid, WorkerStatus.active, some now, 0, 0⟩]

/-!
Retry skeletons.  Every db.py operation wraps its body in
`for attempt in range(config.DB_RETRY_ATTEMPTS): try ... except ...`.
`fails` lists, per attempt, whether the body raised a (connection/SQL)
exception; a successful attempt applies the body's table effect `eff` and
returns its value.  When the final attempt also fails, `acquire_task` and
`acquire_proxy` re-raise the exception (`raise e`, db.py lines 94 and 134),
modelled as `Except.error ()`, while every other operation returns `False`
(db.py lines 158, 180, 240, 262, 288, 316, 339), modelled as
`Except.ok false`.  `failV` records the terminal behaviour.  With an empty
attempt list (a zero `DB_RETRY_ATTEMPTS`, never the case at the default 5)
the Python loop body never runs and the function falls through; that case is
mapped to `failV` and is unused by the theorems below.
-/

/-- Runner for the db.py retry loop; see the section comment above. -/
def db_retry_run {σ α : Type} (eff : σ → σ × α) (failV : Except Unit α) :
    List Bool → σ → σ × Except Unit α
  | [], st => (st, failV)
  | true :: [], st => (st, failV)
  | true :: f :: rest, st => db_retry_run eff failV (f :: rest) st
  | false :: _, st =>
    let p := eff st
    (p.1, Except.ok p.2)

/-- Function `acquire_task` with its retry loop; terminal failure re-raises
(`src/worker/src/db.py` line 94). -/
def run_acquire_task (wid : String) (now : Nat) (fails : List Bool)
    (tbl : List Task) : List Task × Except Unit (Option TaskLease) :=
  db_retry_run (acquire_task_table wid now) (Except.error ()) fails tbl

/-- Function `acquire_proxy` with its retry loop; terminal failure re-raises
(`src/worker/src/db.py` line 134). -/
def run_acquire_proxy (wid : String) (now : Nat) (fails : List Bool)
    (tbl : List Proxy) : List Proxy × Except Unit (Option (Nat × String)) :=
  db_retry_run (acquire_proxy_table wid now) (Except.error ()) fails tbl

/-- Function `release_proxy` with its retry loop; terminal failure returns `False`
(`src/worker/src/db.py` line 158). -/
def run_release_proxy (now : Nat) (ps : String) (fails : List Bool)
    (tbl : List Proxy) : List Proxy × Except Unit Bool :=
  db_retry_run (fun t => (release_proxy_table now ps t, true))
    (Except.ok false) fails tbl

/-- Function `mark_proxy_blocked` with its retry loop; terminal failure returns
`False` (`src/worker/src/db.py` line 180). -/
def run_mark_proxy_blocked (ps : String) (fails : List Bool)
    (tbl : List Proxy) : List Proxy × Except Unit Bool :=
  db_retry_run (fun t => (mark_proxy_blocked_table ps t, true))
    (Except.ok false) fails tbl

/-- Function `save_result_to_db` with its retry loop; terminal failure returns
`False` (`src/worker/src/db.py` line 240). -/
def run_save_result (r : ResultRow) (fails : List Bool)
    (tbl : List ResultRow) : List ResultRow × Except Unit Bool :=
  db_retry_run (fun t => (save_result_table r t, true))
    (Except.ok false) fails tbl

/-- Function `mark_task_completed` with its retry loop; terminal failure returns
`False` (`src/worker/src/db.py` line 262). -/
def run_mark_task_completed (now : Nat) (tid : Nat) (fails : List Bool)
    (tbl : List Task) : List Task × Except Unit Bool :=
  db_retry_run (fun t => (mark_task_completed_table now tid t, true))
    (Except.ok false) fails tbl

/-- Function `increment_task_attempts` (releaseTask) with its retry loop; terminal
failure returns `False` (`src/worker/src/db.py` line 288). -/
def run_increment_task_attempts (tid : Nat) (fails : List Bool)
    (tbl : List Task) : List Task × Except Unit Bool :=
  db_retry_run (fun t => (increment_task_attempts_table tid t, true))
    (Except.ok false) fails tbl

/-- Function `increment_worker_stats` with its retry loop; terminal failure returns
`False` (`src/worker/src/db.py` line 316). -/
def run_increment_worker_stats (wid : String) (success : Bool)
    (fails : List Bool) (tbl : List Worker) : List Worker × Except Unit Bool :=
  db_retry_run (fun t => (increment_worker_stats_table wid success t, true))
    (Except.ok false) fails tbl

/-- Function `update_heartbeat` with its retry loop; terminal failure returns `False`
(`src/worker/src/db.py` line 339), so a heartbeat never raises. -/
def run_update_heartbeat (now : Nat) (wid : String) (fails : List Bool)
    (tbl : List Worker) : List Worker × Except Unit Bool :=
  db_retry_run (fun t => (update_heartbeat_table now wid t, true))
    (Except.ok false) fails tbl

/-!  Worker runtime fragments, from `src/worker/src/main.py` `worker_loop`. -/

/-- The database rows a worker-loop iteration touches. -/
structure WorkerState where
  tasks : List Task
  results : List ResultRow
  workers : List Worker
deriving DecidableEq

/-- The proxy-rotation path of `worker_loop` (`src/worker/src/main.py` lines
168-181): on `rotate_proxy` the worker runs `mark_proxy_blocked` on the
current proxy, tears down the driver, then calls `release_proxy` on that same
proxy (line 171), and finally re-enters `init_playwright`, whose first action
is `acquire_proxy` (line 76).  Returns the proxies table after the three
database statements and the lease `acquire_proxy` returned. -/
def worker_rotate_proxy (wid : String) (now : Nat) (cur : String)
    (tbl : List Proxy) : List Proxy × Option (Nat × String) :=
  let t1 := mark_proxy_blocked_table cur tbl
  let t2 := release_proxy_table now cur t1
  acquire_proxy_table wid now t2

/-- The task-finalisation branch of `worker_loop` (`src/worker/src/main.py`
lines 183-195): when the outcome status is `success` or `unavailable` the
worker runs `save_result_to_db`, then `mark_task_completed`, then
`increment_worker_stats(success=true)` — ignoring each call's boolean return;
otherwise it runs `increment_task_attempts` (releaseTask) and
`increment_worker_stats(success=false)`.  `fails1`, `fails2`, `fails3` are
the per-attempt failure oracles of the branch's three retry loops. -/
def worker_finish_task (now : Nat) (wid : String) (tid : Nat) (res : ResultRow)
    (fails1 fails2 fails3 : List Bool) (st : WorkerState) : WorkerState :=
  if res.status = "success" ∨ res.status = "unavailable" then
    let rs := (run_save_result res fails1 st.results).1
    let ts := (run_mark_task_completed now tid fails2 st.tasks).1
    let ws := (run_increment_worker_stats wid true fails3 st.workers).1
    ⟨ts, rs, ws⟩
  else
    let ts := (run_increment_task_attempts tid fails1 st.tasks).1
    let ws := (run_increment_worker_stats wid false fails3 st.workers).1
    ⟨ts, st.results, ws⟩

/-!  Janitor, from `src/cleanup/cleanup.py`. -/

/-- The janitor's configuration fields (`src/cleanup/cleanup.py` lines 32-37). -/
structure CleanupConfig where
  TASK_TIMEOUT : Nat
  PROXY_TIMEOUT : Nat
  WORKER_TIMEOUT : Nat
  CLEANUP_INTERVAL : Nat
deriving DecidableEq

/-- The default janitor configuration (`src/cleanup/cleanup.py` lines 32-37):
task 600 s, proxy 300 s, worker 240 s, cycle 60 s. -/
def defaultCleanupConfig : CleanupConfig := ⟨600, 300, 240, 60⟩

/-- The janitor's database state. -/
structure JanitorDb where
  tasks : List Task
  proxies : List Proxy
  workers : List Worker
deriving DecidableEq

/-- SQL predicate `ts < NOW() - INTERVAL 'timeout seconds'` on a nullable
timestamp column: false on NULL, else `ts + timeout < now` (embedded without
truncated subtraction). -/
def sqlOlderThan (ts : Option Nat) (timeout now : Nat) : Bool :=
  match ts with
  | some x => x + timeout < now
  | none => false

/-- Function `release_stuck_tasks` (`src/cleanup/cleanup.py` lines 111-118):
`processing` tasks with `last_attempt_at < NOW() - TASK_TIMEOUT` go back to
`pending` with `worker_id` and `last_attempt_at` cleared (a SQL comparison
against a NULL `last_attempt_at` is not true, so such rows are untouched). -/
def release_stuck_tasks_table (cfg : CleanupConfig) (now : Nat)
    (tbl : List Task) : List Task :=
  tbl.map (fun t =>
    if t.status = TaskStatus.processing ∧
        sqlOlderThan t.last_attempt_at cfg.TASK_TIMEOUT now then
      { t with
        status := TaskStatus.pending
        worker_id := none
        last_attempt_at := none }
    else t)

/-- Function `release_stuck_proxies` (`src/cleanup/cleanup.py` lines 144-152):
`locked` proxies with `locked_at < NOW() - PROXY_TIMEOUT` become `available`
with lease fields cleared and `last_used_at=NOW()`. -/
def release_stuck_proxies_table (cfg : CleanupConfig) (now : Nat)
    (tbl : List Proxy) : List Proxy :=
  tbl.map (fun p =>
    if p.status = ProxyStatus.locked ∧
        sqlOlderThan p.locked_at cfg.PROXY_TIMEOUT now then
      { p with
        status := ProxyStatus.available
        locked_by := none
        locked_at := none
        last_used_at := some now }
    else p)

/-- Function `mark_dead_workers` (`src/cleanup/cleanup.py` lines 178-183): `active`
workers with `last_heartbeat < NOW() - WORKER_TIMEOUT` become `stopped`. -/
def mark_dead_workers_table (cfg : CleanupConfig) (now : Nat)
    (tbl : List Worker) : List Worker :=
  tbl.map (fun w =>
    if w.status = WorkerStatus.active ∧
        sqlOlderThan w.last_heartbeat cfg.WORKER_TIMEOUT now then
      { w with status := WorkerStatus.stopped }
    else w)

/-- Function `fail_impossible_tasks` (`src/cleanup/cleanup.py` lines 209-214):
`pending` tasks with `attempts >= max_attempts` become `failed`. -/
def fail_impossible_tasks_table (tbl : List Task) : List Task :=
  tbl.map (fun t =>
    if t.status = TaskStatus.pending ∧ t.max_attempts ≤ t.attempts then
      { t with status := TaskStatus.failed }
    else t)

/-- Function `cleanup_cycle` (`src/cleanup/cleanup.py` lines 231-242): one sweep runs
the four updates in order. -/
def cleanup_cycle (cfg : CleanupConfig) (now : Nat) (db : JanitorDb) : JanitorDb :=
  { tasks := fail_impossible_tasks_table
      (release_stuck_tasks_table cfg now db.tasks)
    proxies := release_stuck_proxies_table cfg now db.proxies
    workers := mark_dead_workers_table cfg now db.workers }

/-- Janitor startup, `main` of `src/cleanup/cleanup.py` (lines 245-269): after
logging the configured timeouts and initialising the pool, the sweep loop is
entered and its first iteration runs `cleanup_cycle`.  The source performs no
validation of the configured timeouts: every configuration reaches the sweep
loop. -/
def cleanup_main_first_cycle (cfg : CleanupConfig) (now : Nat)
    (db : JanitorDb) : JanitorDb :=
  cleanup_cycle cfg now db

/-!  Proxy-string parsing (`src/worker/src/utils.py`) and validation
(`src/cli/upload_proxies.py`). -/

/-- The Playwright proxy configuration built by `parse_proxy`. -/
structure ProxyConfig where
  server : String
  username : String
  password : String
deriving DecidableEq

/-- Characters stripped by Python `str.strip()` (the ASCII whitespace
relevant to the sources: space, tab, newline, carriage return, vertical tab,
form feed). -/
def isPySpace (c : Char) : Bool :=
  c = ' ' ∨ c = '\t' ∨ c = '\n' ∨ c = '\r' ∨ c = '\x0b' ∨ c = '\x0c'

/-- Model of Python `str.strip()` on the character list: drop leading and
trailing whitespace. -/
def pyStripChars (cs : List Char) : List Char :=
  ((cs.dropWhile isPySpace).reverse.dropWhile isPySpace).reverse

/-- Model of Python `str.split(sep)` on the character list: split at every
occurrence of `sep`, keeping empty fields (so a string with `n` separators
yields `n + 1` parts). -/
def pySplitChars (sep : Char) : List Char → List (List Char)
  | [] => [[]]
  | c :: rest =>
    let parts := pySplitChars sep rest
    if c = sep then [] :: parts
    else
      match parts with
      | p :: ps => (c :: p) :: ps
      | [] => [[c]]

/-- Model of Python `str.split(sep)` on strings. -/
def pySplit (sep : Char) (s : String) : List String :=
  (pySplitChars sep s.data).map (fun cs => String.mk cs)

/-- Function `parse_proxy` (`src/worker/src/utils.py` lines 9-27): splits on a colon;
raises `ValueError` (modelled as `Except.error`) unless there are exactly
four parts, else builds the Playwright proxy dict. -/
def parse_proxy (proxy_string : String) : Except Unit ProxyConfig :=
  match pySplit ':' proxy_string with
  | [host, port, username, password] =>
    Except.ok ⟨"http://" ++ host ++ ":" ++ port, username, password⟩
  | _ => Except.error ()

/-- Value of the digit run of a Python integer literal being consumed by
`int(...)`, allowing a single underscore between two digits (accumulator
`acc` carries the digits already read). -/
def pyDigitsAux (acc : Nat) : List Char → Option Nat
  | [] => some acc
  | c :: rest =>
    if c.isDigit then pyDigitsAux (10 * acc + (c.toNat - 48)) rest
    else if c = '_' then
      match rest with
      | d :: rest2 =>
        if d.isDigit then pyDigitsAux (10 * acc + (d.toNat - 48)) rest2
        else none
      | [] => none
    else none

/-- Digit run accepted by `int(...)`: at least one digit, underscores only between
digits. -/
def pyNatOfChars (cs : List Char) : Option Nat :=
  match cs with
  | [] => none
  | c :: rest => if c.isDigit then pyDigitsAux (c.toNat - 48) rest else none

/-- Model of the Python `int(str)` call in `validate_proxy_format`:
surrounding whitespace is stripped, an optional sign precedes a non-empty
ASCII digit run with single underscores allowed between digits; anything else
raises `ValueError`, modelled as `none`. -/
def pyInt (s : String) : Option Int :=
  match pyStripChars s.data with
  | '+' :: rest => (pyNatOfChars rest).map Int.ofNat
  | '-' :: rest => (pyNatOfChars rest).map (fun n => -(Int.ofNat n))
  | cs => (pyNatOfChars cs).map Int.ofNat

/-- Function `validate_proxy_format` (`src/cli/upload_proxies.py` lines 71-108):
exactly four colon-separated parts, a host that is non-empty after stripping,
and a port that `int(...)` accepts with value in `[1, 65535]`; user and
password are unconstrained. -/
def validate_proxy_format (proxy : String) : Bool :=
  match pySplit ':' proxy with
  | [host, port, _user, _password] =>
    if (pyStripChars host.data).isEmpty then false
    else
      match pyInt port with
      | some n => if n ≤ 0 ∨ 65535 < n then false else true
      | none => false
  | _ => false

/-!  Helper lemmas about the `LIMIT 1` minimum selection. -/

/-- An empty selection happens exactly on an empty scan. -/
theorem sqlSelectMin_eq_none {α : Type} {key : α → Nat} :
    ∀ {l : List α}, sqlSelectMin key l = none ↔ l = [] := by
  intro l
  cases l with
  | nil => simp [sqlSelectMin]
  | cons x rest =>
    simp only [sqlSelectMin]
    cases sqlSelectMin key rest with
    | none => simp
    | some b => by_cases hk : key x ≤ key b <;> simp [hk]

/-- A selection result is always a member of the scanned rows. -/
theorem sqlSelectMin_mem {α : Type} {key : α → Nat} :
    ∀ {l : List α} {a : α}, sqlSelectMin key l = some a → a ∈ l := by
  intro l
  induction l with
  | nil => intro a h; simp [sqlSelectMin] at h
  | cons x rest ih =>
    intro a h
    unfold sqlSelectMin at h
    split at h
    · cases h
      exact List.mem_cons_self x rest
    · rename_i b heq
      split at h
      · cases h
        exact List.mem_cons_self x rest
      · cases h
        exact List.mem_cons_of_mem x (ih heq)

/-- A selection result has the minimal key among the scanned rows. -/
theorem sqlSelectMin_le {α : Type} {key : α → Nat} :
    ∀ {l : List α} {a : α}, sqlSelectMin key l = some a →
      ∀ b ∈ l, key a ≤ key b := by
  intro l
  induction l with
  | nil => intro a h; simp [sqlSelectMin] at h
  | cons x rest ih =>
    intro a h b hb
    unfold sqlSelectMin at h
    split at h
    · rename_i heq
      cases h
      have hrest : rest = [] := sqlSelectMin_eq_none.mp heq
      subst hrest
      rcases List.mem_cons.mp hb with hbx | hbr
      · simp [hbx]
      · simp at hbr
    · rename_i m heq
      split at h
      · rename_i hk
        cases h
        rcases List.mem_cons.mp hb with hbx | hbr
        · simp [hbx]
        · exact le_trans hk (ih heq b hbr)
      · rename_i hk
        cases h
        rcases List.mem_cons.mp hb with hbx | hbr
        · rw [hbx]
          exact le_of_not_le hk
        · exact ih heq b hbr

/-!  C3 — releaseProxy has no status guard. -/

/-- A blocked proxy row used to refute C3 as stated. -/
def c3proxy : Proxy := ⟨7, "pb:1:u:x", ProxyStatus.blocked, none, none, none, 2, 3⟩

/-- C3 counterexample: the claim says `releaseProxy` leaves a non-`locked`
proxy row entirely unchanged, but `release_proxy` (db.py lines 143-150) has
no status guard: applied to the `blocked` proxy `c3proxy` it changes the row,
setting its status back to `available` and bumping `last_used_at`. -/
theorem release_proxy_not_noop_on_blocked :
    c3proxy.status = ProxyStatus.blocked ∧
    release_proxy_table 7 "pb:1:u:x" [c3proxy] ≠ [c3proxy] ∧
    (release_proxy_table 7 "pb:1:u:x" [c3proxy]).map (fun p => p.status) =
      [ProxyStatus.available] := by
  refine ⟨rfl, ?_, rfl⟩
  decide

/-- C3 amended: `release_proxy` transitions the matching proxy row from any
state (locked, blocked or available) to `available`, clearing `locked_by` and
`locked_at` and setting `last_used_at` to now; rows whose proxy string does
not match are untouched. -/
theorem release_proxy_unconditional (now : Nat) (ps : String)
    (tbl : List Proxy) (r : Proxy) (hmem : r ∈ tbl) :
    (r.proxy = ps →
      { r with
        status := ProxyStatus.available
        locked_by := none
        locked_at := none
        last_used_at := some now } ∈ release_proxy_table now ps tbl) ∧
    (r.proxy ≠ ps → r ∈ release_proxy_table now ps tbl) := by
  constructor
  · intro hp
    have h := List.mem_map_of_mem (f := fun p =>
      if p.proxy = ps then
        { p with
          status := ProxyStatus.available
          locked_by := none
          locked_at := none
          last_used_at := some now }
      else p) hmem
    simpa [release_proxy_table, hp] using h
  · intro hp
    have h := List.mem_map_of_mem (f := fun p =>
      if p.proxy = ps then
        { p with
          status := ProxyStatus.available
          locked_by := none
          locked_at := none
          last_used_at := some now }
      else p) hmem
    simpa [release_proxy_table, hp] using h

/-- C3 amended, witness: releasing the locked proxy of a one-row table yields
the available row with the lease cleared. -/
theorem release_proxy_unconditional_witness :
    ({ id := 1, proxy := "pl:1:u:x", status := ProxyStatus.available,
       locked_by := none, locked_at := none, last_used_at := some 9,
       uses_count := 1, blocks_count := 0 : Proxy }) ∈
      release_proxy_table 9 "pl:1:u:x"
        [⟨1, "pl:1:u:x", ProxyStatus.locked, some "w:0", some 2, none, 1, 0⟩] :=
  (release_proxy_unconditional 9 "pl:1:u:x"
    [⟨1, "pl:1:u:x", ProxyStatus.locked, some "w:0", some 2, none, 1, 0⟩]
    ⟨1, "pl:1:u:x", ProxyStatus.locked, some "w:0", some 2, none, 1, 0⟩
    (List.mem_singleton.mpr rfl)).1 rfl

/-!  C5 — markTaskCompleted does not clear worker_id. -/

/-- A processing task row holding a lease, used to refute C5 as stated. -/
def c5task : Task := ⟨1, 100, TaskStatus.processing, 1, 5, some "w:1", 0, some 3, none⟩

/-- C5 counterexample: the claim says `markTaskCompleted` clears `worker_id`
to null, but `mark_task_completed` (db.py lines 249-254) only sets `status`
and `completed_at`: the completed row still carries `worker_id = some "w:1"`,
so the data-model invariant that a non-processing task has no lease holder is
not established. -/
theorem mark_task_completed_keeps_worker_cx :
    (mark_task_completed_table 9 1 [c5task]).map
      (fun t => (t.status, t.worker_id)) =
      [(TaskStatus.completed, some "w:1")] := by
  decide

/-- C5 amended: `mark_task_completed` sets the matching row status to
`completed` and `completed_at` to now, but leaves `worker_id` (and the other
columns) unchanged. -/
theorem mark_task_completed_fields (now tid : Nat) (tbl : List Task)
    (t : Task) (hmem : t ∈ tbl) (hid : t.id = tid) :
    ∃ t2, t2 ∈ mark_task_completed_table now tid tbl ∧
      t2.id = t.id ∧ t2.item_id = t.item_id ∧
      t2.status = TaskStatus.completed ∧ t2.completed_at = some now ∧
      t2.worker_id = t.worker_id ∧ t2.attempts = t.attempts ∧
      t2.max_attempts = t.max_attempts ∧
      t2.last_attempt_at = t.last_attempt_at := by
  refine ⟨{ t with status := TaskStatus.completed, completed_at := some now },
    ?_, rfl, rfl, rfl, rfl, rfl, rfl, rfl, rfl⟩
  have h := List.mem_map_of_mem (f := fun u =>
    if u.id = tid then
      { u with status := TaskStatus.completed, completed_at := some now }
    else u) hmem
  simpa [mark_task_completed_table, hid] using h

/-- C5 amended, witness at the concrete row `c5task`. -/
theorem mark_task_completed_fields_witness :
    ∃ t2, t2 ∈ mark_task_completed_table 9 1 [c5task] ∧
      t2.id = c5task.id ∧ t2.item_id = c5task.item_id ∧
      t2.status = TaskStatus.completed ∧ t2.completed_at = some 9 ∧
      t2.worker_id = c5task.worker_id ∧ t2.attempts = c5task.attempts ∧
      t2.max_attempts = c5task.max_attempts ∧
      t2.last_attempt_at = c5task.last_attempt_at :=
  mark_task_completed_fields 9 1 [c5task] c5task
    (List.mem_singleton.mpr rfl) rfl

/-!  C6 — markProxyBlocked does not clear the lease fields. -/

/-- A locked proxy row used to refute C6 as stated. -/
def c6proxy : Proxy := ⟨2, "pl:2:u:x", ProxyStatus.locked, some "w:2", some 4, none, 1, 0⟩

/-- C6 counterexample: the claim says `markProxyBlocked` clears `locked_by`
and `locked_at` to null, but `mark_proxy_blocked` (db.py lines 167-172) only
sets `status` and bumps `blocks_count`: the blocked row still carries
`locked_by = some "w:2"` and `locked_at = some 4`, violating the data-model
invariant that a non-locked proxy has no lease fields set. -/
theorem mark_proxy_blocked_keeps_lease_cx :
    (mark_proxy_blocked_table "pl:2:u:x" [c6proxy]).map
      (fun p => (p.status, p.locked_by, p.locked_at, p.blocks_count)) =
      [(ProxyStatus.blocked, some "w:2", some 4, 1)] := by
  decide

/-- C6 amended: `mark_proxy_blocked` sets the matching row status to
`blocked` and increments `blocks_count`, but leaves `locked_by`, `locked_at`
and the remaining columns unchanged. -/
theorem mark_proxy_blocked_fields (ps : String) (tbl : List Proxy)
    (p : Proxy) (hmem : p ∈ tbl) (hp : p.proxy = ps) :
    ∃ p2, p2 ∈ mark_proxy_blocked_table ps tbl ∧
      p2.id = p.id ∧ p2.proxy = p.proxy ∧
      p2.status = ProxyStatus.blocked ∧
      p2.blocks_count = p.blocks_count + 1 ∧
      p2.locked_by = p.locked_by ∧ p2.locked_at = p.locked_at ∧
      p2.uses_count = p.uses_count ∧ p2.last_used_at = p.last_used_at := by
  refine ⟨{ p with
      status := ProxyStatus.blocked
      blocks_count := p.blocks_count + 1 },
    ?_, rfl, rfl, rfl, rfl, rfl, rfl, rfl, rfl⟩
  have h := List.mem_map_of_mem (f := fun q =>
    if q.proxy = ps then
      { q with status := ProxyStatus.blocked, blocks_count := q.blocks_count + 1 }
    else q) hmem
  simpa [mark_proxy_blocked_table, hp] using h

/-- C6 amended, witness at the concrete row `c6proxy`. -/
theorem mark_proxy_blocked_fields_witness :
    ∃ p2, p2 ∈ mark_proxy_blocked_table "pl:2:u:x" [c6proxy] ∧
      p2.id = c6proxy.id ∧ p2.proxy = c6proxy.proxy ∧
      p2.status = ProxyStatus.blocked ∧
      p2.blocks_count = c6proxy.blocks_count + 1 ∧
      p2.locked_by = c6proxy.locked_by ∧ p2.locked_at = c6proxy.locked_at ∧
      p2.uses_count = c6proxy.uses_count ∧
      p2.last_used_at = c6proxy.last_used_at :=
  mark_proxy_blocked_fields "pl:2:u:x" [c6proxy] c6proxy
    (List.mem_singleton.mpr rfl) rfl

/-!  C8 — releaseTask clears the lease and branches inside one statement. -/

/-- C8: `increment_task_attempts` (releaseTask) clears `worker_id` and
`last_attempt_at` and, in the same single conditional update, sets the
matching row status to `failed` when its already-incremented `attempts` has
reached `max_attempts` and to `pending` otherwise; the other columns are
unchanged. -/
theorem increment_task_attempts_release (tid : Nat) (tbl : List Task)
    (t : Task) (hmem : t ∈ tbl) (hid : t.id = tid) :
    ∃ t2, t2 ∈ increment_task_attempts_table tid tbl ∧
      t2.id = t.id ∧ t2.item_id = t.item_id ∧
      t2.worker_id = none ∧ t2.last_attempt_at = none ∧
      (t.max_attempts ≤ t.attempts → t2.status = TaskStatus.failed) ∧
      (t.attempts < t.max_attempts → t2.status = TaskStatus.pending) ∧
      t2.attempts = t.attempts ∧ t2.max_attempts = t.max_attempts ∧
      t2.completed_at = t.completed_at := by
  refine ⟨{ t with
      status := (if t.max_attempts ≤ t.attempts then TaskStatus.failed
                 else TaskStatus.pending)
      worker_id := none
      last_attempt_at := none },
    ?_, rfl, rfl, rfl, rfl, ?_, ?_, rfl, rfl, rfl⟩
  · have h := List.mem_map_of_mem (f := fun u =>
      if u.id = tid then
        { u with
          status := (if u.max_attempts ≤ u.attempts then TaskStatus.failed
                     else TaskStatus.pending),
          worker_id := none,
          last_attempt_at := none }
      else u) hmem
    simpa [increment_task_attempts_table, hid] using h
  · intro hle
    simp [hle]
  · intro hlt
    simp [Nat.not_le_of_lt hlt]

/-- C8 witness: releasing a processing task whose attempts reached
max_attempts yields a failed row with the lease cleared. -/
theorem increment_task_attempts_release_witness :
    ∃ t2, t2 ∈ increment_task_attempts_table 4
        [⟨4, 200, TaskStatus.processing, 5, 5, some "w:3", 0, some 8, none⟩] ∧
      t2.id = 4 ∧ t2.item_id = 200 ∧
      t2.worker_id = none ∧ t2.last_attempt_at = none ∧
      (5 ≤ 5 → t2.status = TaskStatus.failed) ∧
      (5 < 5 → t2.status = TaskStatus.pending) ∧
      t2.attempts = 5 ∧ t2.max_attempts = 5 ∧
      t2.completed_at = none :=
  increment_task_attempts_release 4
    [⟨4, 200, TaskStatus.processing, 5, 5, some "w:3", 0, some 8, none⟩]
    ⟨4, 200, TaskStatus.processing, 5, 5, some "w:3", 0, some 8, none⟩
    (List.mem_singleton.mpr rfl) rfl

/-!  C7 — acquireTask ordering. -/

/-- A pending task with the larger id sitting earlier in physical row order,
with the same `created_at` as `c7taskB`. -/
def c7taskA : Task := ⟨2, 102, TaskStatus.pending, 0, 5, none, 10, none, none⟩

/-- A pending task with the smaller id, same `created_at` as `c7taskA`. -/
def c7taskB : Task := ⟨1, 101, TaskStatus.pending, 0, 5, none, 10, none, none⟩

/-- C7 counterexample: the claim says a `created_at` tie is broken by the
smaller `task_id`, but `acquire_task` orders by `created_at` only (db.py line
74); on the table holding `c7taskA` (id 2) before `c7taskB` (id 1), both
pending with equal `created_at`, the task with the larger id is leased
first. -/
theorem acquire_task_tie_not_by_id :
    c7taskA.created_at = c7taskB.created_at ∧
    c7taskB.id < c7taskA.id ∧
    c7taskA.status = TaskStatus.pending ∧
    c7taskB.status = TaskStatus.pending ∧
    (acquire_task_table "w:0" 99 [c7taskA, c7taskB]).2 =
      some ⟨2, 102, 1⟩ := by
  refine ⟨rfl, ?_, rfl, rfl, ?_⟩ <;> decide

/-- C7 amended: `acquire_task` returns no lease exactly when no pending task
exists, and any lease it returns belongs to a pending task whose `created_at`
is minimal among the pending tasks (strict FIFO by `created_at`; ties are
resolved by physical row order, not by `task_id`). -/
theorem acquire_task_fifo (wid : String) (now : Nat) (tbl : List Task) :
    ((acquire_task_table wid now tbl).2 = none ↔
      ∀ t ∈ tbl, t.status ≠ TaskStatus.pending) ∧
    (∀ lease, (acquire_task_table wid now tbl).2 = some lease →
      ∃ t, t ∈ tbl ∧ t.status = TaskStatus.pending ∧
        lease.task_id = t.id ∧ lease.item_id = t.item_id ∧
        lease.attempts = t.attempts + 1 ∧
        ∀ u ∈ tbl, u.status = TaskStatus.pending →
          t.created_at ≤ u.created_at) := by
  constructor
  · cases hsel : sqlSelectMin (fun t => t.created_at)
        (tbl.filter (fun t => t.status = TaskStatus.pending)) with
    | none =>
      have hnil := sqlSelectMin_eq_none.mp hsel
      have hres : (acquire_task_table wid now tbl).2 = none := by
        unfold acquire_task_table
        rw [hsel]
      constructor
      · intro _ t hmem hpend
        have ht : t ∈ tbl.filter (fun u => u.status = TaskStatus.pending) := by
          simp [List.mem_filter, hmem, hpend]
        rw [hnil] at ht
        simp at ht
      · intro _
        exact hres
    | some sel =>
      have hres : (acquire_task_table wid now tbl).2 =
          some ⟨sel.id, sel.item_id, sel.attempts + 1⟩ := by
        unfold acquire_task_table
        rw [hsel]
      constructor
      · intro hx
        rw [hres] at hx
        exact Option.noConfusion hx
      · intro hall
        exfalso
        have hmemf := sqlSelectMin_mem hsel
        rcases List.mem_filter.mp hmemf with ⟨hmem, hpend⟩
        exact hall sel hmem (by simpa using hpend)
  · intro lease hlease
    unfold acquire_task_table at hlease
    cases hsel : sqlSelectMin (fun t => t.created_at)
        (tbl.filter (fun t => t.status = TaskStatus.pending)) with
    | none => rw [hsel] at hlease; simp at hlease
    | some sel =>
      rw [hsel] at hlease
      simp at hlease
      have hmemf := sqlSelectMin_mem hsel
      rcases List.mem_filter.mp hmemf with ⟨hmem, hpend⟩
      refine ⟨sel, hmem, by simpa using hpend, ?_, ?_, ?_, ?_⟩
      · rw [← hlease]
      · rw [← hlease]
      · rw [← hlease]
      · intro u hu hupend
        exact sqlSelectMin_le hsel u
          (List.mem_filter.mpr ⟨hu, by simpa using hupend⟩)

/-- C7 amended, witness: on a one-row pending table the lease goes to that
task, and on a table with no pending row no lease is produced. -/
theorem acquire_task_fifo_witness :
    (∃ t, t ∈ [c7taskA] ∧ t.status = TaskStatus.pending ∧
      (2 : Nat) = t.id ∧ (102 : Nat) = t.item_id ∧
      (1 : Nat) = t.attempts + 1 ∧
      ∀ u ∈ [c7taskA], u.status = TaskStatus.pending →
        t.created_at ≤ u.created_at) ∧
    (acquire_task_table "w:0" 99 ([] : List Task)).2 = none := by
  constructor
  · exact (acquire_task_fifo "w:0" 99 [c7taskA]).2 ⟨2, 102, 1⟩ (by decide)
  · exact (acquire_task_fifo "w:0" 99 []).1.mpr (by simp)

/-!  C1 — the rotation path un-blocks and re-leases a just-blocked proxy. -/

/-- The single locked proxy of the rotation scenario. -/
def c1proxy : Proxy := ⟨1, "h1:1000:u:x", ProxyStatus.locked, some "w:0", some 5, none, 3, 0⟩

/-- C1, evaluating the code at the failing input: starting from the single
proxy `c1proxy` held by worker `w:0`, the rotation path of `worker_loop`
(main.py lines 168-181) first blocks the proxy, but its subsequent
`release_proxy` call (line 171) — which has no status guard — flips the
just-blocked proxy back to `available`, and the `acquire_proxy` of the
rebuild step immediately re-leases that same proxy.  This refutes the claimed
invariant that a blocked proxy stays blocked and is never again returned by
`acquireProxy`. -/
theorem rotation_reacquires_blocked_proxy :
    (mark_proxy_blocked_table "h1:1000:u:x" [c1proxy]).map (fun p => p.status) =
      [ProxyStatus.blocked] ∧
    (release_proxy_table 10 "h1:1000:u:x"
        (mark_proxy_blocked_table "h1:1000:u:x" [c1proxy])).map
        (fun p => p.status) = [ProxyStatus.available] ∧
    (worker_rotate_proxy "w:0" 10 "h1:1000:u:x" [c1proxy]).2 =
      some (1, "h1:1000:u:x") ∧
    (worker_rotate_proxy "w:0" 10 "h1:1000:u:x" [c1proxy]).1.map
      (fun p => (p.status, p.locked_by)) =
      [(ProxyStatus.locked, some "w:0")] := by
  refine ⟨?_, ?_, ?_, ?_⟩ <;> decide

/-!  C2 — no partial-success state. -/

/-- A processing task used by the C2 scenario. -/
def c2task : Task := ⟨1, 100, TaskStatus.processing, 1, 5, some "w:0", 0, some 2, none⟩

/-- The success result row the processor produced for `c2task`. -/
def c2result : ResultRow := ⟨100, "success", "w:0", 1⟩

/-- The worker state after finishing `c2task` with a success outcome whose
`save_result_to_db` fails on all `DB_RETRY_ATTEMPTS` attempts while
`mark_task_completed` succeeds on its first attempt. -/
def c2failedSaveState : WorkerState :=
  worker_finish_task 9 "w:0" 1 c2result
    (List.replicate DB_RETRY_ATTEMPTS true) [false] [false]
    ⟨[c2task], [], [⟨"w:0", WorkerStatus.active, some 1, 0, 0⟩]⟩

/-- C2 counterexample: when every `save_result_to_db` attempt fails, the
worker (main.py lines 183-186) ignores the returned `False` and still calls
`mark_task_completed`: the task ends `completed` while no Result row was
saved, contradicting the claimed all-or-nothing behaviour. -/
theorem completed_without_result_row :
    c2failedSaveState.results = [] ∧
    c2failedSaveState.tasks.map (fun t => t.status) = [TaskStatus.completed] := by
  constructor <;> decide

/-- C2 amended: when the branch database operations succeed, a success or
unavailable outcome saves the Result row and completes the task, and any
other outcome releases the task (releaseTask) with no Result row written;
but when `save_result_to_db` exhausts its retry budget, its failure is
ignored and the task is still marked completed with no Result row saved. -/
theorem worker_finish_task_cases (now : Nat) (wid : String) (tid : Nat)
    (res : ResultRow) (r1 r2 r3 : List Bool) (st : WorkerState) :
    ((res.status = "success" ∨ res.status = "unavailable") →
      worker_finish_task now wid tid res (false :: r1) (false :: r2)
          (false :: r3) st =
        ⟨mark_task_completed_table now tid st.tasks,
         save_result_table res st.results,
         increment_worker_stats_table wid true st.workers⟩) ∧
    (¬(res.status = "success" ∨ res.status = "unavailable") →
      worker_finish_task now wid tid res (false :: r1) (false :: r2)
          (false :: r3) st =
        ⟨increment_task_attempts_table tid st.tasks,
         st.results,
         increment_worker_stats_table wid false st.workers⟩) ∧
    ((res.status = "success" ∨ res.status = "unavailable") →
      worker_finish_task now wid tid res
          (List.replicate DB_RETRY_ATTEMPTS true) (false :: r2)
          (false :: r3) st =
        ⟨mark_task_completed_table now tid st.tasks,
         st.results,
         increment_worker_stats_table wid true st.workers⟩) := by
  refine ⟨?_, ?_, ?_⟩
  · intro h
    unfold worker_finish_task
    rw [if_pos h]
    rfl
  · intro h
    unfold worker_finish_task
    rw [if_neg h]
    rfl
  · intro h
    unfold worker_finish_task
    rw [if_pos h]
    rfl

/-- C2 amended, witness: a success outcome with first-attempt database
successes lands the Result row and completes the task. -/
theorem worker_finish_task_cases_witness :
    worker_finish_task 9 "w:0" 1 c2result [false] [false] [false]
        ⟨[c2task], [], []⟩ =
      ⟨mark_task_completed_table 9 1 [c2task],
       save_result_table c2result [],
       increment_worker_stats_table "w:0" true []⟩ :=
  (worker_finish_task_cases 9 "w:0" 1 c2result [] [] []
    ⟨[c2task], [], []⟩).1 (Or.inl rfl)

/-!  C4 — which operations propagate the terminal error. -/

/-- C4 counterexample: the claim says `releaseProxy` (like the other
non-heartbeat operations) raises after its retry budget is exhausted, but
when all `DB_RETRY_ATTEMPTS` attempts fail, `release_proxy` returns `False`
(db.py line 158) instead of propagating the error. -/
theorem release_proxy_swallows_terminal_error :
    run_release_proxy 0 "p:1:u:x" (List.replicate DB_RETRY_ATTEMPTS true)
      ([] : List Proxy) = ([], Except.ok false) ∧
    (run_release_proxy 0 "p:1:u:x" (List.replicate DB_RETRY_ATTEMPTS true)
      ([] : List Proxy)).2 ≠ Except.error () := by
  refine ⟨rfl, ?_⟩
  intro h
  exact Except.noConfusion (rfl.trans h)

/-- C4 amended: after all `DB_RETRY_ATTEMPTS` attempts fail, only
`acquire_task` and `acquire_proxy` re-raise the terminal error; every other
operation — `release_proxy`, `mark_proxy_blocked`, `save_result_to_db`,
`mark_task_completed`, `increment_task_attempts` (releaseTask),
`increment_worker_stats`, and also the heartbeat — returns `False` without
raising and leaves the table unchanged. -/
theorem db_ops_terminal_failure (wid ps : String) (now tid : Nat)
    (res : ResultRow) (success : Bool) (ts : List Task) (prx : List Proxy)
    (ws : List Worker) (rs : List ResultRow) :
    run_acquire_task wid now (List.replicate DB_RETRY_ATTEMPTS true) ts =
      (ts, Except.error ()) ∧
    run_acquire_proxy wid now (List.replicate DB_RETRY_ATTEMPTS true) prx =
      (prx, Except.error ()) ∧
    run_release_proxy now ps (List.replicate DB_RETRY_ATTEMPTS true) prx =
      (prx, Except.ok false) ∧
    run_mark_proxy_blocked ps (List.replicate DB_RETRY_ATTEMPTS true) prx =
      (prx, Except.ok false) ∧
    run_save_result res (List.replicate DB_RETRY_ATTEMPTS true) rs =
      (rs, Except.ok false) ∧
    run_mark_task_completed now tid (List.replicate DB_RETRY_ATTEMPTS true) ts =
      (ts, Except.ok false) ∧
    run_increment_task_attempts tid (List.replicate DB_RETRY_ATTEMPTS true) ts =
      (ts, Except.ok false) ∧
    run_increment_worker_stats wid success (List.replicate DB_RETRY_ATTEMPTS true) ws =
      (ws, Except.ok false) ∧
    run_update_heartbeat now wid (List.replicate DB_RETRY_ATTEMPTS true) ws =
      (ws, Except.ok false) :=
  ⟨rfl, rfl, rfl, rfl, rfl, rfl, rfl, rfl, rfl⟩

/-!  C9 — janitor startup and the timeout ordering. -/

/-- A configuration violating the claimed ordering: task timeout 100 s, proxy
300 s, worker 600 s, so that neither worker ≤ proxy nor proxy ≤ task holds. -/
def c9cfg : CleanupConfig := ⟨100, 300, 600, 60⟩

/-- A task stuck in `processing` since time 0, used by the C9 scenario. -/
def c9task : Task := ⟨1, 500, TaskStatus.processing, 1, 5, some "w:0", 0, some 0, none⟩

/-- C9 counterexample: the claim says janitor startup fails (the sweep loop
is never entered) whenever the configuration violates `WORKER_TIMEOUT ≤
PROXY_TIMEOUT ≤ TASK_TIMEOUT`, but `main` (cleanup.py lines 245-269) performs
no such check: with the violating configuration `c9cfg` the first sweep
cycle still runs and reclaims the stuck task `c9task`. -/
theorem cleanup_runs_with_bad_ordering :
    ¬(c9cfg.WORKER_TIMEOUT ≤ c9cfg.PROXY_TIMEOUT ∧
      c9cfg.PROXY_TIMEOUT ≤ c9cfg.TASK_TIMEOUT) ∧
    (cleanup_main_first_cycle c9cfg 1000 ⟨[c9task], [], []⟩).tasks.map
      (fun t => (t.status, t.worker_id)) = [(TaskStatus.pending, none)] := by
  constructor <;> decide

/-- C9 amended: the janitor performs no timeout-ordering validation at
startup: for every configuration — the ordering-violating ones included —
the sweep loop is entered and its first cycle processes the tables (a stuck
processing task is reclaimed and, if hopeless, failed).  The default
configuration does satisfy `WORKER_TIMEOUT ≤ PROXY_TIMEOUT ≤ TASK_TIMEOUT`
(240 ≤ 300 ≤ 600). -/
theorem cleanup_no_startup_validation :
    (defaultCleanupConfig.WORKER_TIMEOUT ≤ defaultCleanupConfig.PROXY_TIMEOUT ∧
     defaultCleanupConfig.PROXY_TIMEOUT ≤ defaultCleanupConfig.TASK_TIMEOUT) ∧
    ∀ (cfg : CleanupConfig) (now : Nat) (db : JanitorDb) (t : Task),
      t ∈ db.tasks → t.status = TaskStatus.processing →
      sqlOlderThan t.last_attempt_at cfg.TASK_TIMEOUT now = true →
      ∃ t2, t2 ∈ (cleanup_main_first_cycle cfg now db).tasks ∧
        t2.id = t.id ∧ t2.worker_id = none ∧ t2.last_attempt_at = none ∧
        t2.status = (if t.max_attempts ≤ t.attempts then TaskStatus.failed
                     else TaskStatus.pending) := by
  refine ⟨⟨by decide, by decide⟩, ?_⟩
  intro cfg now db t hmem hproc hold
  have h1 : ({ t with
      status := TaskStatus.pending
      worker_id := none
      last_attempt_at := none } : Task) ∈
        release_stuck_tasks_table cfg now db.tasks := by
    have h := List.mem_map_of_mem (f := fun u =>
      if u.status = TaskStatus.processing ∧
          sqlOlderThan u.last_attempt_at cfg.TASK_TIMEOUT now then
        { u with
          status := TaskStatus.pending
          worker_id := none
          last_attempt_at := none }
      else u) hmem
    simpa [release_stuck_tasks_table, hproc, hold] using h
  by_cases hle : t.max_attempts ≤ t.attempts
  · have h2 : ({ t with
        status := TaskStatus.failed
        worker_id := none
        last_attempt_at := none } : Task) ∈
          fail_impossible_tasks_table
            (release_stuck_tasks_table cfg now db.tasks) := by
      have h := List.mem_map_of_mem (f := fun u =>
        if u.status = TaskStatus.pending ∧ u.max_attempts ≤ u.attempts then
          { u with status := TaskStatus.failed }
        else u) h1
      simpa [fail_impossible_tasks_table, hle] using h
    exact ⟨_, h2, rfl, rfl, rfl, by simp [hle]⟩
  · have h2 : ({ t with
        status := TaskStatus.pending
        worker_id := none
        last_attempt_at := none } : Task) ∈
          fail_impossible_tasks_table
            (release_stuck_tasks_table cfg now db.tasks) := by
      have h := List.mem_map_of_mem (f := fun u =>
        if u.status = TaskStatus.pending ∧ u.max_attempts ≤ u.attempts then
          { u with status := TaskStatus.failed }
        else u) h1
      simpa [fail_impossible_tasks_table, hle] using h
    exact ⟨_, h2, rfl, rfl, rfl, by simp [hle]⟩

/-- C9 amended, witness: under the ordering-violating configuration `c9cfg`
the first sweep still reclaims the stuck task `c9task`. -/
theorem cleanup_no_startup_validation_witness :
    ∃ t2, t2 ∈ (cleanup_main_first_cycle c9cfg 1000 ⟨[c9task], [], []⟩).tasks ∧
      t2.id = c9task.id ∧ t2.worker_id = none ∧ t2.last_attempt_at = none ∧
      t2.status = (if c9task.max_attempts ≤ c9task.attempts then
                     TaskStatus.failed
                   else TaskStatus.pending) :=
  cleanup_no_startup_validation.2 c9cfg 1000 ⟨[c9task], [], []⟩ c9task
    (List.mem_singleton.mpr rfl) rfl (by decide)

/-!  C10 — the loader's validation guarantees the worker's parse. -/

/-- C10: every line accepted by the loader `validate_proxy_format` splits
into exactly four colon-separated fields, and on it the worker
`parse_proxy` does not raise but returns the Playwright dict built from those
same four fields; conversely `parse_proxy` raises `ValueError` exactly when
the split does not have exactly four parts. -/
theorem validate_implies_parse (s : String) :
    (validate_proxy_format s = true →
      ∃ host port u pw, pySplit ':' s = [host, port, u, pw] ∧
        parse_proxy s = Except.ok ⟨"http://" ++ host ++ ":" ++ port, u, pw⟩) ∧
    ((∃ e, parse_proxy s = Except.error e) ↔ (pySplit ':' s).length ≠ 4) := by
  have hval : ∀ parts, pySplit ':' s = parts → parts.length ≠ 4 →
      validate_proxy_format s = false := by
    intro parts hp hlen
    unfold validate_proxy_format
    rw [hp]
    rcases parts with _ | ⟨a, _ | ⟨b, _ | ⟨c, _ | ⟨d, _ | ⟨e, rest⟩⟩⟩⟩⟩ <;>
      first
        | rfl
        | exact absurd rfl hlen
  rcases hp : pySplit ':' s
    with _ | ⟨a, _ | ⟨b, _ | ⟨c, _ | ⟨d, _ | ⟨e, rest⟩⟩⟩⟩⟩
  case nil =>
    constructor
    · intro hv
      rw [hval [] hp (by simp)] at hv
      exact Bool.noConfusion hv
    · unfold parse_proxy
      rw [hp]
      simp
  case cons.nil =>
    constructor
    · intro hv
      rw [hval [a] hp (by simp)] at hv
      exact Bool.noConfusion hv
    · unfold parse_proxy
      rw [hp]
      simp
  case cons.cons.nil =>
    constructor
    · intro hv
      rw [hval [a, b] hp (by simp)] at hv
      exact Bool.noConfusion hv
    · unfold parse_proxy
      rw [hp]
      simp
  case cons.cons.cons.nil =>
    constructor
    · intro hv
      rw [hval [a, b, c] hp (by simp)] at hv
      exact Bool.noConfusion hv
    · unfold parse_proxy
      rw [hp]
      simp
  case cons.cons.cons.cons.nil =>
    constructor
    · intro _
      refine ⟨a, b, c, d, rfl, ?_⟩
      unfold parse_proxy
      rw [hp]
    · unfold parse_proxy
      rw [hp]
      simp
  case cons.cons.cons.cons.cons =>
    constructor
    · intro hv
      rw [hval (a :: b :: c :: d :: e :: rest) hp (by simp)] at hv
      exact Bool.noConfusion hv
    · unfold parse_proxy
      rw [hp]
      simp

/-- C10 witness: a proxies-file line in the documented format is accepted by
the loader and parsed by the worker into the matching Playwright dict. -/
theorem validate_implies_parse_witness :
    ∃ host port u pw,
      pySplit ':' "178.250.190.177:3000:q5Wuid:1j8A4VJOZr" =
        [host, port, u, pw] ∧
      parse_proxy "178.250.190.177:3000:q5Wuid:1j8A4VJOZr" =
        Except.ok ⟨"http://" ++ host ++ ":" ++ port, u, pw⟩ :=
  (validate_implies_parse "178.250.190.177:3000:q5Wuid:1j8A4VJOZr").1
    (by decide)

end Zamer
